import Mathlib

/-!
Verification of the CWebKit capability-detection shims
(`Sources/CWebKit/include/JavaScriptCore.h`, `WPEWebKit.h`, `WebKitGTK.h`).

Each shim is pure C-preprocessor text: an include guard, `#if __has_include`
probes, conditional `#include` directives and a `#define` of a capability
macroisch constant.  We embed the preprocessor run of each shim as a function
on an explicit translation-unit state.

Modelling decisions, all taken from C preprocessor semantics:
* a configuration records, for every header named in the three files,
  whether that header can be located on the include search path, plus
  whether the compiler defines the `__has_include` operator;
* the translation-unit state records which include-guard macros are
  defined, the value of each capability macro (`none` = not defined),
  which headers have been textually included, and whether a fatal
  error has occurred (a `#include` of a header that cannot be located
  is a fatal error: the rest of the file is not processed);
* native headers are opaque: "the declarations of header H are visible"
  is modelled as "H has been included".
-/

/-- A build configuration: availability of every header that the three
shims mention, and whether the compiler supports `__has_include`. -/
structure Config where
  /-- the compiler defines the `__has_include` operator -/
  hasIncludeSupported : Bool
  /-- `<JavaScriptCore/JavaScript.h>` is on the include path -/
  jscJavaScript : Bool
  /-- `<jsc/jsc.h>` is on the include path -/
  jscJsc : Bool
  /-- `<wpe/webkit.h>` is on the include path -/
  wpeWebkit : Bool
  /-- `<webkit2/webkit2.h>` is on the include path -/
  webkit2 : Bool
  /-- `<glib.h>` is on the include path -/
  glib : Bool
  /-- `<gio/gio.h>` is on the include path -/
  gio : Bool
  /-- `<gtk/gtk.h>` is on the include path -/
  gtk : Bool
deriving DecidableEq, Repr

/-- Translation-unit state as seen by the preprocessor: include guards,
capability macro values (`none` = macro not defined), the set of headers
included so far, and whether a fatal missing-include error occurred. -/
structure TUState where
  /-- `CWebKit_JavaScriptCore_h` is defined -/
  guardJSC : Bool
  /-- `CWebKit_WPEWebKit_h` is defined -/
  guardWPE : Bool
  /-- `CWebKit_WebKitGTK_h` is defined -/
  guardGTK : Bool
  /-- value of `CWEBKIT_HAS_JAVASCRIPTCORE` -/
  hasJavaScriptCore : Option Nat
  /-- value of `CWEBKIT_HAS_WPE` -/
  hasWPE : Option Nat
  /-- value of `CWEBKIT_HAS_GTK` -/
  hasGTK : Option Nat
  /-- `<JavaScriptCore/JavaScript.h>` has been included -/
  incJavaScriptCore : Bool
  /-- `<jsc/jsc.h>` has been included -/
  incJsc : Bool
  /-- `<wpe/webkit.h>` has been included -/
  incWpe : Bool
  /-- `<webkit2/webkit2.h>` has been included -/
  incWebkit2 : Bool
  /-- `<gtk/gtk.h>` has been included -/
  incGtk : Bool
  /-- `<glib.h>` has been included -/
  incGlib : Bool
  /-- `<gio/gio.h>` has been included -/
  incGio : Bool
  /-- a `#include` failed to locate its header: fatal error, processing
  of the remainder of the current file stops -/
  err : Bool
deriving DecidableEq, Repr

/-- The state of a fresh translation unit before any shim is included. -/
def initState : TUState :=
  { guardJSC := false, guardWPE := false, guardGTK := false
    hasJavaScriptCore := none, hasWPE := none, hasGTK := none
    incJavaScriptCore := false, incJsc := false, incWpe := false
    incWebkit2 := false, incGtk := false, incGlib := false, incGio := false
    err := false }

/-- Preprocessing of `Sources/CWebKit/include/JavaScriptCore.h`:

```
#ifndef CWebKit_JavaScriptCore_h
#define CWebKit_JavaScriptCore_h
#ifdef __has_include
    #if __has_include(<JavaScriptCore/JavaScript.h>)
        #include <JavaScriptCore/JavaScript.h>
        #define CWEBKIT_HAS_JAVASCRIPTCORE 1
    #elif __has_include(<jsc/jsc.h>)
        #include <jsc/jsc.h>
        #define CWEBKIT_HAS_JAVASCRIPTCORE 1
    #else
        #define CWEBKIT_HAS_JAVASCRIPTCORE 0
    #endif
#else
    #define CWEBKIT_HAS_JAVASCRIPTCORE 0
#endif
#endif
```

Every `#include` here sits under the `__has_include` probe of the very
same header, so it always succeeds: this shim can never raise an error. -/
def includeJavaScriptCoreH (cfg : Config) (s : TUState) : TUState :=
  if s.guardJSC then s
  else
    let s1 := { s with guardJSC := true }
    if cfg.hasIncludeSupported then
      if cfg.jscJavaScript then
        { s1 with incJavaScriptCore := true, hasJavaScriptCore := some 1 }
      else if cfg.jscJsc then
        { s1 with incJsc := true, hasJavaScriptCore := some 1 }
      else
        { s1 with hasJavaScriptCore := some 0 }
    else
      { s1 with hasJavaScriptCore := some 0 }

/-- Preprocessing of `Sources/CWebKit/include/WPEWebKit.h`:

```
#ifndef CWebKit_WPEWebKit_h
#define CWebKit_WPEWebKit_h
#ifdef __has_include
    #if __has_include(<wpe/webkit.h>)
        #include <wpe/webkit.h>
        #define CWEBKIT_HAS_WPE 1
    #else
        #define CWEBKIT_HAS_WPE 0
    #endif
#else
    #define CWEBKIT_HAS_WPE 0
#endif

// GLib is required for WPE WebKit
#ifdef __has_include
    #if __has_include(<glib.h>)
        #include <glib.h>
        #include <gio/gio.h>
    #endif
#endif
#endif
```

The second block probes `<glib.h>` but includes `<gio/gio.h>` without a
probe: if `<glib.h>` is available and `<gio/gio.h>` is not, that
`#include` is a fatal error (nothing further in the file matters, the
macro was already defined by the first block). -/
def includeWPEWebKitH (cfg : Config) (s : TUState) : TUState :=
  if s.guardWPE then s
  else
    let s1 := { s with guardWPE := true }
    let s2 :=
      if cfg.hasIncludeSupported then
        if cfg.wpeWebkit then
          { s1 with incWpe := true, hasWPE := some 1 }
        else
          { s1 with hasWPE := some 0 }
      else
        { s1 with hasWPE := some 0 }
    if cfg.hasIncludeSupported then
      if cfg.glib then
        let s3 := { s2 with incGlib := true }
        if cfg.gio then { s3 with incGio := true } else { s3 with err := true }
      else s2
    else s2

/-- Preprocessing of `Sources/CWebKit/include/WebKitGTK.h`:

```
#ifndef CWebKit_WebKitGTK_h
#define CWebKit_WebKitGTK_h
#ifdef __has_include
    #if __has_include(<webkit2/webkit2.h>)
        #include <webkit2/webkit2.h>
        #include <gtk/gtk.h>
        #define CWEBKIT_HAS_GTK 1
    #else
        #define CWEBKIT_HAS_GTK 0
    #endif
#else
    #define CWEBKIT_HAS_GTK 0
#endif
#endif
```

`<gtk/gtk.h>` is included without a probe of its own: if
`<webkit2/webkit2.h>` is found but `<gtk/gtk.h>` is absent, the
`#include <gtk/gtk.h>` is a fatal error and the following
`#define CWEBKIT_HAS_GTK 1` is never processed. -/
def includeWebKitGTKH (cfg : Config) (s : TUState) : TUState :=
  if s.guardGTK then s
  else
    let s1 := { s with guardGTK := true }
    if cfg.hasIncludeSupported then
      if cfg.webkit2 then
        let s2 := { s1 with incWebkit2 := true }
        if cfg.gtk then
          { s2 with incGtk := true, hasGTK := some 1 }
        else
          { s2 with err := true }
      else
        { s1 with hasGTK := some 0 }
    else
      { s1 with hasGTK := some 0 }

/-- Value of `CWEBKIT_HAS_JAVASCRIPTCORE` after a fresh translation unit
includes the JavaScriptCore shim. -/
def jscMacro (cfg : Config) : Option Nat :=
  (includeJavaScriptCoreH cfg initState).hasJavaScriptCore

/-- Value of `CWEBKIT_HAS_WPE` after a fresh translation unit includes
the WPE shim. -/
def wpeMacro (cfg : Config) : Option Nat :=
  (includeWPEWebKitH cfg initState).hasWPE

/-- Value of `CWEBKIT_HAS_GTK` after a fresh translation unit includes
the GTK shim. -/
def gtkMacro (cfg : Config) : Option Nat :=
  (includeWebKitGTKH cfg initState).hasGTK

/-- "Found" in the sense of the spec: the `__has_include` probe of the
JavaScriptCore shim located one of its two candidate headers. -/
def foundJavaScriptCore (cfg : Config) : Bool :=
  cfg.hasIncludeSupported && (cfg.jscJavaScript || cfg.jscJsc)

/-- "Found": the WPE shim's probe located `<wpe/webkit.h>`. -/
def foundWPE (cfg : Config) : Bool :=
  cfg.hasIncludeSupported && cfg.wpeWebkit

/-- "Found": the GTK shim's probe located `<webkit2/webkit2.h>`. -/
def foundGTK (cfg : Config) : Bool :=
  cfg.hasIncludeSupported && cfg.webkit2

/-- Observable outcome of the JavaScriptCore shim on a fresh translation
unit: its macro value together with the headers it included. -/
def jscOutcome (cfg : Config) : Option Nat × Bool × Bool :=
  let s := includeJavaScriptCoreH cfg initState
  (s.hasJavaScriptCore, s.incJavaScriptCore, s.incJsc)

/-- Observable outcome of the WPE shim on a fresh translation unit. -/
def wpeOutcome (cfg : Config) : Option Nat × Bool × Bool × Bool :=
  let s := includeWPEWebKitH cfg initState
  (s.hasWPE, s.incWpe, s.incGlib, s.incGio)

/-- Observable outcome of the GTK shim on a fresh translation unit. -/
def gtkOutcome (cfg : Config) : Option Nat × Bool × Bool :=
  let s := includeWebKitGTKH cfg initState
  (s.hasGTK, s.incWebkit2, s.incGtk)

/-- A configuration in which every header is present and `__has_include`
is supported (a full desktop Linux box). -/
def cfgFull : Config :=
  ⟨true, true, true, true, true, true, true, true⟩

/-- A configuration in which no header is present. -/
def cfgBare : Config :=
  ⟨true, false, false, false, false, false, false, false⟩

/-- A configuration whose compiler lacks `__has_include` although every
header is actually present on the system. -/
def cfgNoProbe : Config :=
  ⟨false, true, true, true, true, true, true, true⟩

/-- A configuration in which both JavaScriptCore candidate headers are
available and nothing else is. -/
def cfgBothJsc : Config :=
  ⟨true, true, true, false, false, false, false, false⟩

/-- A configuration with GLib (`<glib.h>` and `<gio/gio.h>`) available
but no WebKit headers at all. -/
def cfgGlibOnly : Config :=
  ⟨true, false, false, false, false, true, true, false⟩

/-- Normal form of the JavaScriptCore capability macro: it is always
defined, to `1` exactly when the probe found a candidate header. -/
lemma jscMacro_eq_found (cfg : Config) :
    jscMacro cfg = some (if foundJavaScriptCore cfg = true then 1 else 0) := by
  rcases cfg with ⟨hi, a, b, c, d, e, f, g⟩
  revert hi a b c d e f g
  decide

/-- Normal form of the WPE capability macro: it is always defined, to `1`
exactly when the probe found `<wpe/webkit.h>`. -/
lemma wpeMacro_eq_found (cfg : Config) :
    wpeMacro cfg = some (if foundWPE cfg = true then 1 else 0) := by
  rcases cfg with ⟨hi, a, b, c, d, e, f, g⟩
  revert hi a b c d e f g
  decide

/-- Normal form of the GTK capability macro: when `<webkit2/webkit2.h>` is
found, the macro becomes `1` only if `<gtk/gtk.h>` is also locatable —
otherwise the unguarded `#include <gtk/gtk.h>` aborts the file before the
`#define` and the macro stays undefined. -/
lemma gtkMacro_eq_found (cfg : Config) :
    gtkMacro cfg =
      if foundGTK cfg = true then (if cfg.gtk = true then some 1 else none)
      else some 0 := by
  rcases cfg with ⟨hi, a, b, c, d, e, f, g⟩
  revert hi a b c d e f g
  decide

/-- Normal form of the GTK shim's outcome when `<gtk/gtk.h>` accompanies
`<webkit2/webkit2.h>`: exactly two outcomes, selected by the probe. -/
lemma gtkOutcome_eq_found (cfg : Config) (h : cfg.webkit2 = true → cfg.gtk = true) :
    gtkOutcome cfg =
      if foundGTK cfg = true then (some 1, true, true) else (some 0, false, false) := by
  rcases cfg with ⟨hi, a, b, c, d, e, f, g⟩
  revert h
  revert hi a b c d e f g
  decide

/-- Any run of the JavaScriptCore shim leaves its include guard defined. -/
lemma includeJavaScriptCoreH_guard (cfg : Config) (s : TUState) :
    (includeJavaScriptCoreH cfg s).guardJSC = true := by
  unfold includeJavaScriptCoreH
  repeat' split
  all_goals first | assumption | rfl

/-- Any run of the WPE shim leaves its include guard defined. -/
lemma includeWPEWebKitH_guard (cfg : Config) (s : TUState) :
    (includeWPEWebKitH cfg s).guardWPE = true := by
  unfold includeWPEWebKitH
  repeat' split
  all_goals first | assumption | rfl

/-- Any run of the GTK shim leaves its include guard defined. -/
lemma includeWebKitGTKH_guard (cfg : Config) (s : TUState) :
    (includeWebKitGTKH cfg s).guardGTK = true := by
  unfold includeWebKitGTKH
  repeat' split
  all_goals first | assumption | rfl

/-- With its include guard already defined, the JavaScriptCore shim is a
no-op: the `#ifndef` skips the whole body. -/
lemma includeJavaScriptCoreH_of_guard (cfg : Config) {s : TUState}
    (h : s.guardJSC = true) : includeJavaScriptCoreH cfg s = s := by
  simp [includeJavaScriptCoreH, h]

/-- With its include guard already defined, the WPE shim is a no-op. -/
lemma includeWPEWebKitH_of_guard (cfg : Config) {s : TUState}
    (h : s.guardWPE = true) : includeWPEWebKitH cfg s = s := by
  simp [includeWPEWebKitH, h]

/-- With its include guard already defined, the GTK shim is a no-op. -/
lemma includeWebKitGTKH_of_guard (cfg : Config) {s : TUState}
    (h : s.guardGTK = true) : includeWebKitGTKH cfg s = s := by
  simp [includeWebKitGTKH, h]

/-- Claim C1 counterexample: in the configuration where `__has_include`
is supported, `<webkit2/webkit2.h>` is available but `<gtk/gtk.h>` is
not, the probe finds the GTK target yet `CWEBKIT_HAS_GTK` never becomes
`1`: the unguarded `#include <gtk/gtk.h>` aborts the file before the
`#define`, so the "= 1 iff found" equivalence fails as stated. -/
theorem c1_gtk_found_but_macro_not_one_cex :
    foundGTK ⟨true, false, false, false, true, false, false, false⟩ = true ∧
    gtkMacro ⟨true, false, false, false, true, false, false, false⟩ ≠ some 1 := by
  decide

/-- Claim C1 (amended): provided `<gtk/gtk.h>` is available whenever
`<webkit2/webkit2.h>` is, each capability macro equals `1` iff the
corresponding `__has_include` probe found the native header:
`CWEBKIT_HAS_JAVASCRIPTCORE` iff `<JavaScriptCore/JavaScript.h>` or
`<jsc/jsc.h>` was found, `CWEBKIT_HAS_WPE` iff `<wpe/webkit.h>` was
found, `CWEBKIT_HAS_GTK` iff `<webkit2/webkit2.h>` was found. -/
theorem c1_macro_one_iff_found (cfg : Config)
    (hdep : cfg.webkit2 = true → cfg.gtk = true) :
    (jscMacro cfg = some 1 ↔ foundJavaScriptCore cfg = true) ∧
    (wpeMacro cfg = some 1 ↔ foundWPE cfg = true) ∧
    (gtkMacro cfg = some 1 ↔ foundGTK cfg = true) := by
  rcases cfg with ⟨hi, a, b, c, d, e, f, g⟩
  revert hdep
  revert hi a b c d e f g
  decide

/-- Witness for C1: the equivalences hold at the full configuration. -/
theorem c1_macro_one_iff_found_wit :
    (jscMacro cfgFull = some 1 ↔ foundJavaScriptCore cfgFull = true) ∧
    (wpeMacro cfgFull = some 1 ↔ foundWPE cfgFull = true) ∧
    (gtkMacro cfgFull = some 1 ↔ foundGTK cfgFull = true) :=
  c1_macro_one_iff_found cfgFull (by decide)

/-- Claim C2 counterexample: with `<wpe/webkit.h>` available but
`<glib.h>` absent, `CWEBKIT_HAS_WPE` is `1` yet the GLib dependency
header is not made visible — the shim's second block probes `<glib.h>`
and skips it when absent, so the claim's "GLib declarations become
visible whenever the macro is 1" fails. -/
theorem c2_wpe_macro_one_without_glib_cex :
    wpeMacro ⟨true, false, false, true, false, false, false, false⟩ = some 1 ∧
    (includeWPEWebKitH ⟨true, false, false, true, false, false, false, false⟩
        initState).incGlib = false := by
  decide

/-- Claim C2 (amended): when a shim's capability macro is `1`, the found
native header's declarations are visible; the GTK shim also makes
`<gtk/gtk.h>` visible; the WPE shim makes `<glib.h>` (and `<gio/gio.h>`)
visible provided that dependency header is itself available. -/
theorem c2_macro_one_headers_visible (cfg : Config) :
    (jscMacro cfg = some 1 → cfg.jscJavaScript = true →
      (includeJavaScriptCoreH cfg initState).incJavaScriptCore = true) ∧
    (jscMacro cfg = some 1 → cfg.jscJavaScript = false →
      (includeJavaScriptCoreH cfg initState).incJsc = true) ∧
    (gtkMacro cfg = some 1 →
      (includeWebKitGTKH cfg initState).incWebkit2 = true ∧
      (includeWebKitGTKH cfg initState).incGtk = true) ∧
    (wpeMacro cfg = some 1 → (includeWPEWebKitH cfg initState).incWpe = true) ∧
    (wpeMacro cfg = some 1 → cfg.glib = true →
      (includeWPEWebKitH cfg initState).incGlib = true) ∧
    (wpeMacro cfg = some 1 → cfg.glib = true → cfg.gio = true →
      (includeWPEWebKitH cfg initState).incGio = true) := by
  rcases cfg with ⟨hi, a, b, c, d, e, f, g⟩
  revert hi a b c d e f g
  decide

/-- Witness for C2: at the full configuration every header the amended
claim promises is indeed visible. -/
theorem c2_macro_one_headers_visible_wit :
    (includeJavaScriptCoreH cfgFull initState).incJavaScriptCore = true ∧
    (includeWebKitGTKH cfgFull initState).incWebkit2 = true ∧
    (includeWebKitGTKH cfgFull initState).incGtk = true ∧
    (includeWPEWebKitH cfgFull initState).incWpe = true ∧
    (includeWPEWebKitH cfgFull initState).incGlib = true ∧
    (includeWPEWebKitH cfgFull initState).incGio = true := by
  have h := c2_macro_one_headers_visible cfgFull
  exact ⟨h.1 (by decide) (by decide),
         (h.2.2.1 (by decide)).1,
         (h.2.2.1 (by decide)).2,
         h.2.2.2.1 (by decide),
         h.2.2.2.2.1 (by decide) (by decide),
         h.2.2.2.2.2 (by decide) (by decide) (by decide)⟩

/-- Claim C3: two-run noninterference. Two configurations that agree on
the compiler's `__has_include` support and on a shim's own headers, while
the other two units' headers vary arbitrarily, give that shim's
capability macro the same value. Field order of `Config`:
⟨hasIncludeSupported, jscJavaScript, jscJsc, wpeWebkit, webkit2, glib,
gio, gtk⟩; primed letters are the varied fields. -/
theorem c3_shims_noninterference :
    (∀ hi a b c d e f g c' d' e' f' g' : Bool,
        jscMacro ⟨hi, a, b, c, d, e, f, g⟩ = jscMacro ⟨hi, a, b, c', d', e', f', g'⟩) ∧
    (∀ hi a b c d e f g a' b' d' g' : Bool,
        wpeMacro ⟨hi, a, b, c, d, e, f, g⟩ = wpeMacro ⟨hi, a', b', c, d', e, f, g'⟩) ∧
    (∀ hi a b c d e f g a' b' c' e' f' : Bool,
        gtkMacro ⟨hi, a, b, c, d, e, f, g⟩ = gtkMacro ⟨hi, a', b', c', d, e', f', g⟩) := by
  refine ⟨?_, ?_, ?_⟩ <;> intros <;>
    simp [jscMacro_eq_found, wpeMacro_eq_found, gtkMacro_eq_found,
      foundJavaScriptCore, foundWPE, foundGTK]

/-- Claim C4: including a shim is idempotent. Re-inclusion is a no-op on
the whole translation-unit state (macros, visible headers, error flag),
for a second and for any further inclusion. -/
theorem c4_shims_idempotent (cfg : Config) (s : TUState) :
    includeJavaScriptCoreH cfg (includeJavaScriptCoreH cfg s) =
      includeJavaScriptCoreH cfg s ∧
    includeWPEWebKitH cfg (includeWPEWebKitH cfg s) = includeWPEWebKitH cfg s ∧
    includeWebKitGTKH cfg (includeWebKitGTKH cfg s) = includeWebKitGTKH cfg s ∧
    (∀ n : Nat, (includeJavaScriptCoreH cfg)^[n] (includeJavaScriptCoreH cfg s) =
      includeJavaScriptCoreH cfg s) ∧
    (∀ n : Nat, (includeWPEWebKitH cfg)^[n] (includeWPEWebKitH cfg s) =
      includeWPEWebKitH cfg s) ∧
    (∀ n : Nat, (includeWebKitGTKH cfg)^[n] (includeWebKitGTKH cfg s) =
      includeWebKitGTKH cfg s) := by
  have h1 := includeJavaScriptCoreH_of_guard cfg (includeJavaScriptCoreH_guard cfg s)
  have h2 := includeWPEWebKitH_of_guard cfg (includeWPEWebKitH_guard cfg s)
  have h3 := includeWebKitGTKH_of_guard cfg (includeWebKitGTKH_guard cfg s)
  exact ⟨h1, h2, h3, fun n => Function.iterate_fixed h1 n,
    fun n => Function.iterate_fixed h2 n, fun n => Function.iterate_fixed h3 n⟩

/-- Claim C5 counterexample: with `<wpe/webkit.h>` absent (so the target
native header is missing), `<glib.h>` present and `<gio/gio.h>` absent,
the WPE shim's unguarded `#include <gio/gio.h>` is a fatal error: absence
of the target does not always degrade error-free. -/
theorem c5_wpe_error_despite_absent_target_cex :
    (⟨true, false, false, false, false, true, false, false⟩ : Config).wpeWebkit
      = false ∧
    (includeWPEWebKitH ⟨true, false, false, false, false, true, false, false⟩
        initState).err = true := by
  decide

/-- Claim C5 (amended): when the target native header is absent the
capability macro degrades to `0`; the JavaScriptCore and GTK shims then
raise no error, and the WPE shim raises no error provided `<gio/gio.h>`
is available whenever `<glib.h>` is. -/
theorem c5_absent_target_degrades (cfg : Config) :
    (includeJavaScriptCoreH cfg initState).err = false ∧
    (cfg.jscJavaScript = false → cfg.jscJsc = false → jscMacro cfg = some 0) ∧
    (cfg.wpeWebkit = false → wpeMacro cfg = some 0) ∧
    ((cfg.glib = true → cfg.gio = true) →
      (includeWPEWebKitH cfg initState).err = false) ∧
    (cfg.webkit2 = false →
      gtkMacro cfg = some 0 ∧ (includeWebKitGTKH cfg initState).err = false) := by
  rcases cfg with ⟨hi, a, b, c, d, e, f, g⟩
  revert hi a b c d e f g
  decide

/-- Witness for C5: on a system with no headers at all, every macro is
`0` and no shim errors. -/
theorem c5_absent_target_degrades_wit :
    (includeJavaScriptCoreH cfgBare initState).err = false ∧
    jscMacro cfgBare = some 0 ∧
    wpeMacro cfgBare = some 0 ∧
    (includeWPEWebKitH cfgBare initState).err = false ∧
    gtkMacro cfgBare = some 0 ∧
    (includeWebKitGTKH cfgBare initState).err = false := by
  have h := c5_absent_target_degrades cfgBare
  exact ⟨h.1, h.2.1 (by decide) (by decide), h.2.2.1 (by decide),
    h.2.2.2.1 (by decide), (h.2.2.2.2 (by decide)).1, (h.2.2.2.2 (by decide)).2⟩

/-- Claim C6 counterexample: with `__has_include` supported,
`<webkit2/webkit2.h>` present and `<gtk/gtk.h>` absent, the GTK shim's
unguarded `#include <gtk/gtk.h>` aborts the file before the `#define`,
so `CWEBKIT_HAS_GTK` ends up undefined — not `0`, not `1`. -/
theorem c6_gtk_macro_undefined_cex :
    gtkMacro ⟨true, false, false, false, true, false, false, false⟩ = none := by
  decide

/-- Claim C6 (amended): `CWEBKIT_HAS_JAVASCRIPTCORE` and `CWEBKIT_HAS_WPE`
are always defined to `0` or `1`; `CWEBKIT_HAS_GTK` is defined to `0` or
`1` provided `<gtk/gtk.h>` is available whenever `<webkit2/webkit2.h>`
is, and the only way it can stay undefined is the fatal-error abort of
the shim. -/
theorem c6_macro_defined_zero_or_one (cfg : Config) :
    (jscMacro cfg = some 0 ∨ jscMacro cfg = some 1) ∧
    (wpeMacro cfg = some 0 ∨ wpeMacro cfg = some 1) ∧
    ((cfg.webkit2 = true → cfg.gtk = true) →
      (gtkMacro cfg = some 0 ∨ gtkMacro cfg = some 1)) ∧
    (gtkMacro cfg = none → (includeWebKitGTKH cfg initState).err = true) := by
  rcases cfg with ⟨hi, a, b, c, d, e, f, g⟩
  revert hi a b c d e f g
  decide

/-- Witness for C6: at the full configuration all three macros are
defined to `0` or `1`. -/
theorem c6_macro_defined_zero_or_one_wit :
    (jscMacro cfgFull = some 0 ∨ jscMacro cfgFull = some 1) ∧
    (wpeMacro cfgFull = some 0 ∨ wpeMacro cfgFull = some 1) ∧
    (gtkMacro cfgFull = some 0 ∨ gtkMacro cfgFull = some 1) := by
  have h := c6_macro_defined_zero_or_one cfgFull
  exact ⟨h.1, h.2.1, h.2.2.1 (by decide)⟩

/-- Claim C7 counterexample: two configurations on which the
JavaScriptCore probe reports "found" alike nevertheless give different
(macro, included headers) outcomes — one includes
`<JavaScriptCore/JavaScript.h>`, the other `<jsc/jsc.h>` — so the shim's
outcome pair is not determined solely by "found", and it takes more than
two values. -/
theorem c7_jsc_distinct_outcomes_cex :
    foundJavaScriptCore ⟨true, true, false, false, false, false, false, false⟩ =
      foundJavaScriptCore ⟨true, false, true, false, false, false, false, false⟩ ∧
    jscOutcome ⟨true, true, false, false, false, false, false, false⟩ ≠
      jscOutcome ⟨true, false, true, false, false, false, false, false⟩ := by
  decide

/-- Claim C7 (amended): each shim's capability macro value is determined
solely by whether its target was found (for GTK, provided `<gtk/gtk.h>`
accompanies `<webkit2/webkit2.h>`, and then even the GTK shim's full
(macro, included headers) outcome is two-valued and determined by the
probe); the JavaScriptCore and WPE shims' included-header sets may vary
further — with the candidate that was found, and with GLib availability,
respectively. -/
theorem c7_macro_determined_by_found :
    (∀ c1 c2 : Config, foundJavaScriptCore c1 = foundJavaScriptCore c2 →
        jscMacro c1 = jscMacro c2) ∧
    (∀ c1 c2 : Config, foundWPE c1 = foundWPE c2 → wpeMacro c1 = wpeMacro c2) ∧
    (∀ c1 c2 : Config, (c1.webkit2 = true → c1.gtk = true) →
        (c2.webkit2 = true → c2.gtk = true) →
        foundGTK c1 = foundGTK c2 → gtkOutcome c1 = gtkOutcome c2) := by
  refine ⟨?_, ?_, ?_⟩
  · intro c1 c2 h
    rw [jscMacro_eq_found, jscMacro_eq_found, h]
  · intro c1 c2 h
    rw [wpeMacro_eq_found, wpeMacro_eq_found, h]
  · intro c1 c2 h1 h2 h
    rw [gtkOutcome_eq_found c1 h1, gtkOutcome_eq_found c2 h2, h]

/-- Witness for C7: concrete two-run instances — the JavaScriptCore
macro agrees across two found-alike configurations, and the GTK outcome
agrees across two found-alike configurations satisfying the proviso. -/
theorem c7_macro_determined_by_found_wit :
    jscMacro cfgFull =
      jscMacro ⟨true, true, false, false, false, false, false, false⟩ ∧
    gtkOutcome cfgFull =
      gtkOutcome ⟨true, false, false, false, true, false, false, true⟩ := by
  have h := c7_macro_determined_by_found
  exact ⟨h.1 cfgFull ⟨true, true, false, false, false, false, false, false⟩ (by decide),
    h.2.2 cfgFull ⟨true, false, false, false, true, false, false, true⟩
      (by decide) (by decide) (by decide)⟩

/-- Claim C8: on a compiler without `__has_include`, all three capability
macros are `0` and no native header is included, regardless of which
headers are actually present. -/
theorem c8_no_probe_all_zero (cfg : Config)
    (h : cfg.hasIncludeSupported = false) :
    jscMacro cfg = some 0 ∧ wpeMacro cfg = some 0 ∧ gtkMacro cfg = some 0 ∧
    (includeJavaScriptCoreH cfg initState).incJavaScriptCore = false ∧
    (includeJavaScriptCoreH cfg initState).incJsc = false ∧
    (includeWPEWebKitH cfg initState).incWpe = false ∧
    (includeWPEWebKitH cfg initState).incGlib = false ∧
    (includeWPEWebKitH cfg initState).incGio = false ∧
    (includeWebKitGTKH cfg initState).incWebkit2 = false ∧
    (includeWebKitGTKH cfg initState).incGtk = false := by
  rcases cfg with ⟨hi, a, b, c, d, e, f, g⟩
  revert h
  revert hi a b c d e f g
  decide

/-- Witness for C8: even with every header present on the system, a
compiler lacking `__has_include` gets all macros `0` and no includes. -/
theorem c8_no_probe_all_zero_wit :
    jscMacro cfgNoProbe = some 0 ∧ wpeMacro cfgNoProbe = some 0 ∧
    gtkMacro cfgNoProbe = some 0 ∧
    (includeJavaScriptCoreH cfgNoProbe initState).incJavaScriptCore = false ∧
    (includeJavaScriptCoreH cfgNoProbe initState).incJsc = false ∧
    (includeWPEWebKitH cfgNoProbe initState).incWpe = false ∧
    (includeWPEWebKitH cfgNoProbe initState).incGlib = false ∧
    (includeWPEWebKitH cfgNoProbe initState).incGio = false ∧
    (includeWebKitGTKH cfgNoProbe initState).incWebkit2 = false ∧
    (includeWebKitGTKH cfgNoProbe initState).incGtk = false :=
  c8_no_probe_all_zero cfgNoProbe (by decide)

/-- Claim C9: under a compiler supporting `__has_include`, the
JavaScriptCore shim prefers `<JavaScriptCore/JavaScript.h>`: when that
is available it is included and `<jsc/jsc.h>` is not (even if also
available); `<jsc/jsc.h>` is included exactly when the preferred header
is unavailable and `<jsc/jsc.h>` is available; and the macro is `1` iff
at least one candidate is available. -/
theorem c9_jsc_preference_order (cfg : Config)
    (h : cfg.hasIncludeSupported = true) :
    (cfg.jscJavaScript = true →
      (includeJavaScriptCoreH cfg initState).incJavaScriptCore = true ∧
      (includeJavaScriptCoreH cfg initState).incJsc = false) ∧
    ((includeJavaScriptCoreH cfg initState).incJsc = true ↔
      cfg.jscJavaScript = false ∧ cfg.jscJsc = true) ∧
    (jscMacro cfg = some 1 ↔ (cfg.jscJavaScript || cfg.jscJsc) = true) := by
  rcases cfg with ⟨hi, a, b, c, d, e, f, g⟩
  revert h
  revert hi a b c d e f g
  decide

/-- Witness for C9: with both candidates available, the preferred header
is the one included and the macro is `1`. -/
theorem c9_jsc_preference_order_wit :
    (includeJavaScriptCoreH cfgBothJsc initState).incJavaScriptCore = true ∧
    (includeJavaScriptCoreH cfgBothJsc initState).incJsc = false ∧
    jscMacro cfgBothJsc = some 1 := by
  have h := c9_jsc_preference_order cfgBothJsc (by decide)
  exact ⟨(h.1 (by decide)).1, (h.1 (by decide)).2, h.2.2.mpr (by decide)⟩

/-- Claim C10 counterexample: `<glib.h>` is available but `<gio/gio.h>`
is not; including the WPE shim does not make the GIO declarations
visible (the unguarded `#include <gio/gio.h>` is a fatal error instead),
so "GLib declarations (glib.h and gio/gio.h) become visible in every
configuration where `<glib.h>` is available" fails. -/
theorem c10_gio_not_visible_cex :
    (⟨true, false, false, false, false, true, false, false⟩ : Config).glib
      = true ∧
    (includeWPEWebKitH ⟨true, false, false, false, false, true, false, false⟩
        initState).incGio = false := by
  decide

/-- Claim C10 (amended): when the compiler supports `__has_include` and
both `<glib.h>` and `<gio/gio.h>` are available, including the WPE shim
makes both GLib headers visible — for every configuration, hence
independently of whether `<wpe/webkit.h>` was found. -/
theorem c10_glib_visible_independent_of_wpe (cfg : Config)
    (h1 : cfg.hasIncludeSupported = true) (h2 : cfg.glib = true)
    (h3 : cfg.gio = true) :
    (includeWPEWebKitH cfg initState).incGlib = true ∧
    (includeWPEWebKitH cfg initState).incGio = true := by
  rcases cfg with ⟨hi, a, b, c, d, e, f, g⟩
  revert h1 h2 h3
  revert hi a b c d e f g
  decide

/-- Witness for C10: with GLib present and WPE absent the GLib headers
are visible while `CWEBKIT_HAS_WPE` is `0`. -/
theorem c10_glib_visible_independent_of_wpe_wit :
    (includeWPEWebKitH cfgGlibOnly initState).incGlib = true ∧
    (includeWPEWebKitH cfgGlibOnly initState).incGio = true ∧
    wpeMacro cfgGlibOnly = some 0 := by
  have h := c10_glib_visible_independent_of_wpe cfgGlibOnly
    (by decide) (by decide) (by decide)
  exact ⟨h.1, h.2, by decide⟩
